import Mathlib

/-!
Verification of the iot-backend upload server (Express + Cloudinary + Mongoose).

The repository has two server variants:
* `src/app.js` — the full variant: POST /upload (auth, body check, Cloudinary
  upload, MongoDB metadata persistence, Telegram notification, JSON response)
  and GET /images (find–sort–limit–project query over saved metadata);
* `src/unnamed/part_000` — an older variant of the same upload handler without
  the MongoDB persistence step.

We shallowly embed both handlers as pure Lean functions.  External collaborator
outcomes (Cloudinary upload, Mongoose save) are passed in as `Except` values,
and the handler returns both the HTTP response it composes and a record of
which collaborator calls it made (with their arguments), so that claims of the
form "no side effect happens" are statements about the returned `Effects`.
-/

namespace IotBackend

/-- JS falsiness of a `string | undefined` value: `undefined` and the empty
string are falsy (model of `!x` on such values). -/
def jsFalsy : Option String → Bool
  | none => true
  | some s => s = ""

/-- JS `a || b` on `string | undefined` values: yields `a` when `a` is truthy,
otherwise `b`. -/
def jsOr (a b : Option String) : Option String :=
  if jsFalsy a then b else a

/-- Numeric value of a list of decimal digit characters. -/
def digitsVal (cs : List Char) : Nat :=
  cs.foldl (fun a c => 10 * a + (c.toNat - 48)) 0

/-- JS `parseInt(s, 10)`: skip leading whitespace, read an optional sign and
then the longest leading run of decimal digits; if that run is empty the
result is NaN, which we model as `none`. -/
def jsParseInt (s : String) : Option Int :=
  let cs := s.toList.dropWhile (fun c => c = ' ' ∨ c = '\t' ∨ c = '\n' ∨ c = '\r')
  match cs with
  | '-' :: t =>
      let ds := t.takeWhile Char.isDigit
      if ds.isEmpty then none else some (-(digitsVal ds : Int))
  | '+' :: t =>
      let ds := t.takeWhile Char.isDigit
      if ds.isEmpty then none else some (digitsVal ds : Int)
  | _ =>
      let ds := cs.takeWhile Char.isDigit
      if ds.isEmpty then none else some (digitsVal ds : Int)

/-- Environment configuration read by the upload handler:
`DEVICE_API_KEY`, `TELEGRAM_BOT_TOKEN`, `TELEGRAM_CHAT_ID`.  `none` models an
unset environment variable (`undefined` in JS). -/
structure UploadEnv where
  deviceApiKey : Option String
  tgToken : Option String
  tgChat : Option String
deriving Repr, DecidableEq

/-- The parts of an inbound POST /upload request the handler looks at:
the `x-api-key` header, the `apiKey` query parameter, the `x-device-id`
header, the `deviceId` query parameter, and the raw body (a byte list;
`none` models a missing body). -/
structure UploadRequest where
  headerApiKey : Option String
  queryApiKey : Option String
  headerDeviceId : Option String
  queryDeviceId : Option String
  body : Option (List Nat)
deriving Repr, DecidableEq

/-- Successful Cloudinary upload result (the fields the handler reads). -/
structure StorageResult where
  secure_url : String
  public_id : String
  width : Nat
  height : Nat
  bytes : Nat
deriving Repr, DecidableEq

/-- Successfully saved Mongoose document (the fields the handler reads:
`_id` and the `createdAt` timestamp added by the schema timestamps option,
which is always set on a saved document). -/
structure SavedDoc where
  id : Nat
  createdAt : Nat
deriving Repr, DecidableEq

/-- The JSON response composed by the upload handler, together with its HTTP
status.  `none` in an `Option` field models the field being absent from the
JSON body. -/
structure UploadResponse where
  status : Nat
  ok : Option Bool
  error : Option String
  url : Option String
  public_id : Option String
  width : Option Nat
  height : Option Nat
  bytes : Option Nat
  imageId : Option Nat
  savedAt : Option Nat
deriving Repr, DecidableEq

/-- The ImageRecord the handler hands to the metadata store for insertion
(`new Image({deviceId, url, public_id, width, height, bytes})`). -/
structure ImageInsert where
  deviceId : String
  url : String
  public_id : String
  width : Nat
  height : Nat
  bytes : Nat
deriving Repr, DecidableEq

/-- Collaborator calls made while handling one upload request, with their
arguments: the storage upload (folder and body bytes), the metadata insert
(the ImageRecord), and the Telegram notification (the photo URL).  A `none`
field means that collaborator was never invoked. -/
structure Effects where
  storageCall : Option (String × List Nat)
  persistCall : Option ImageInsert
  notifyCall : Option String
deriving Repr, DecidableEq

/-- No collaborator call at all. -/
def noCalls : Effects := ⟨none, none, none⟩

/-- An error response: only `status` and the `error` field are set. -/
def errResponse (status : Nat) (msg : String) : UploadResponse :=
  { status := status, ok := none, error := some msg, url := none,
    public_id := none, width := none, height := none, bytes := none,
    imageId := none, savedAt := none }

/-- `req.headers["x-api-key"] || req.query.apiKey`. -/
def suppliedApiKey (req : UploadRequest) : Option String :=
  jsOr req.headerApiKey req.queryApiKey

/-- `req.headers["x-device-id"] || req.query.deviceId || "unknown_device"`. -/
def requestDeviceId (req : UploadRequest) : String :=
  (jsOr (jsOr req.headerDeviceId req.queryDeviceId) (some "unknown_device")).getD
    "unknown_device"

/-- `!buffer || buffer.length === 0`: the body is missing or empty. -/
def emptyBody : Option (List Nat) → Prop
  | none => True
  | some b => b = []

instance : DecidablePred emptyBody := by
  intro b
  cases b <;> simp [emptyBody] <;> infer_instance

/-- The `src/app.js` POST /upload handler.  `storage` is the outcome of the
awaited Cloudinary `upload_stream` promise (a rejection is thrown and lands in
the outer catch, which answers 500 with the stringified error); `persist` is
the outcome of `imgDoc.save()` (a failure is caught locally and only logged:
`savedDoc` stays null and handling continues).  The Telegram call is attempted
exactly when both `TELEGRAM_BOT_TOKEN` and `TELEGRAM_CHAT_ID` are truthy; its
outcome is caught locally and never affects the response. -/
def uploadHandler (env : UploadEnv) (req : UploadRequest)
    (storage : Except String StorageResult) (persist : Except String SavedDoc) :
    UploadResponse × Effects :=
  if jsFalsy (suppliedApiKey req) = true ∨ suppliedApiKey req ≠ env.deviceApiKey then
    (errResponse 401 "Unauthorized: invalid api key", noCalls)
  else if emptyBody req.body then
    (errResponse 400 "No image uploaded", noCalls)
  else
    let folder := "esp32/" ++ requestDeviceId req
    let buffer := req.body.getD []
    match storage with
    | Except.error e =>
        (errResponse 500 e, { noCalls with storageCall := some (folder, buffer) })
    | Except.ok uploadResult =>
        let record : ImageInsert :=
          { deviceId := requestDeviceId req, url := uploadResult.secure_url,
            public_id := uploadResult.public_id, width := uploadResult.width,
            height := uploadResult.height, bytes := uploadResult.bytes }
        let savedDoc : Option SavedDoc := persist.toOption
        let notify : Option String :=
          if jsFalsy env.tgToken = false ∧ jsFalsy env.tgChat = false then
            some uploadResult.secure_url
          else none
        ({ status := 200, ok := some true, error := none,
           url := some uploadResult.secure_url,
           public_id := some uploadResult.public_id,
           width := some uploadResult.width,
           height := some uploadResult.height,
           bytes := some uploadResult.bytes,
           imageId := savedDoc.map SavedDoc.id,
           savedAt := savedDoc.map SavedDoc.createdAt },
         { storageCall := some (folder, buffer),
           persistCall := some record,
           notifyCall := notify })

/-- The `src/unnamed/part_000` POST /upload handler: identical authentication,
body validation, storage and notification logic, but no persistence step and
no `imageId` / `savedAt` in the response. -/
def uploadHandlerV0 (env : UploadEnv) (req : UploadRequest)
    (storage : Except String StorageResult) : UploadResponse × Effects :=
  if jsFalsy (suppliedApiKey req) = true ∨ suppliedApiKey req ≠ env.deviceApiKey then
    (errResponse 401 "Unauthorized: invalid api key", noCalls)
  else if emptyBody req.body then
    (errResponse 400 "No image uploaded", noCalls)
  else
    let folder := "esp32/" ++ requestDeviceId req
    let buffer := req.body.getD []
    match storage with
    | Except.error e =>
        (errResponse 500 e, { noCalls with storageCall := some (folder, buffer) })
    | Except.ok uploadResult =>
        let notify : Option String :=
          if jsFalsy env.tgToken = false ∧ jsFalsy env.tgChat = false then
            some uploadResult.secure_url
          else none
        ({ status := 200, ok := some true, error := none,
           url := some uploadResult.secure_url,
           public_id := some uploadResult.public_id,
           width := some uploadResult.width,
           height := some uploadResult.height,
           bytes := some uploadResult.bytes,
           imageId := none, savedAt := none },
         { storageCall := some (folder, buffer),
           persistCall := none,
           notifyCall := notify })

/-- `Math.min(100, parseInt(req.query.limit || "20", 10))`: the effective
limit used by the GET /images handler, with `none` modelling NaN (the result
of `parseInt` on a string with no leading digits, which `Math.min`
propagates). -/
def effectiveLimit (limitParam : Option String) : Option Int :=
  ((jsOr limitParam (some "20")).getD "20" |> jsParseInt).map (fun n => min 100 n)

/-- A document saved by the Image model in MongoDB.  Besides the schema
fields (`deviceId`, `url`, `public_id`, `width`, `height`, `bytes`) a stored
document carries the store-assigned `_id`, the `createdAt` and `updatedAt`
timestamps added by the schema timestamps option, and the `__v` version key.
The handler only ever creates documents with all schema fields present, so we
model them as total. -/
structure StoredImage where
  id : Nat
  deviceId : String
  url : String
  public_id : String
  width : Nat
  height : Nat
  bytes : Nat
  createdAt : Nat
  updatedAt : Nat
  versionKey : Nat
deriving Repr, DecidableEq

/-- A JSON value appearing in a returned image document. -/
inductive DocValue where
  | str : String → DocValue
  | num : Nat → DocValue
deriving Repr, DecidableEq

/-- A returned image document: an ordered list of field-name / value pairs. -/
abbrev Doc := List (String × DocValue)

/-- The full BSON document a `StoredImage` is stored as, in field order:
`_id` first, then the schema fields, then the timestamps and version key. -/
def toDoc (r : StoredImage) : Doc :=
  [("_id", DocValue.num r.id),
   ("deviceId", DocValue.str r.deviceId),
   ("url", DocValue.str r.url),
   ("public_id", DocValue.str r.public_id),
   ("width", DocValue.num r.width),
   ("height", DocValue.num r.height),
   ("bytes", DocValue.num r.bytes),
   ("createdAt", DocValue.num r.createdAt),
   ("updatedAt", DocValue.num r.updatedAt),
   ("__v", DocValue.num r.versionKey)]

/-- The field names listed in the handler's `.select({...})` projection. -/
def imagesProjection : List String :=
  ["url", "deviceId", "createdAt", "public_id", "width", "height", "bytes"]

/-- Modelled from the spec: the document store applies an inclusion
projection.  Per MongoDB semantics an inclusion projection keeps exactly the
listed fields plus `_id`, which is always included unless explicitly
excluded (the handler does not exclude it). -/
def applyProjection (fields : List String) (doc : Doc) : Doc :=
  doc.filter (fun kv => kv.1 = "_id" ∨ kv.1 ∈ fields)

/-- The document returned for one stored image by the GET /images query. -/
def projectImage (r : StoredImage) : Doc :=
  applyProjection imagesProjection (toDoc r)

/-- Modelled from the spec: the document store's find–sort–limit–project
query (`Image.find(filter).sort({createdAt:-1}).limit(limit).select(...)`):
keep the records matching the device filter, sort them by `createdAt`
descending, keep the first `limit` of them (no truncation when the limit is
NaN), and project each. -/
def queryImages (db : List StoredImage) (deviceFilter : Option String)
    (lim : Option Int) : List Doc :=
  let filtered := match deviceFilter with
    | some d => db.filter (fun r : StoredImage => decide (r.deviceId = d))
    | none => db
  let sorted := filtered.mergeSort (fun a b => decide (b.createdAt ≤ a.createdAt))
  let limited := match lim with
    | some n => sorted.take n.toNat
    | none => sorted
  limited.map projectImage

/-- The query parameters of a GET /images request. -/
structure ImagesRequest where
  limitParam : Option String
  deviceIdParam : Option String
deriving Repr, DecidableEq

/-- The GET /images response on the success path: HTTP 200 and
`{ok: true, images: docs}`. -/
structure ImagesResponse where
  status : Nat
  ok : Bool
  images : List Doc
deriving Repr, DecidableEq

/-- The `src/app.js` GET /images handler (success path): compute the
effective limit, build the filter (the `deviceId` query parameter is used
only when truthy), run the find–sort–limit–project query against the store
and answer 200 with the resulting documents. -/
def imagesHandler (db : List StoredImage) (req : ImagesRequest) :
    ImagesResponse :=
  let lim := effectiveLimit req.limitParam
  let filt := if jsFalsy req.deviceIdParam then none else req.deviceIdParam
  { status := 200, ok := true, images := queryImages db filt lim }

/-- The numeric `createdAt` value of a returned document (0 when absent). -/
def docCreatedAt (d : Doc) : Nat :=
  match d.lookup "createdAt" with
  | some (DocValue.num n) => n
  | _ => 0

/-- A sample stored image: id 7, device esp32-1. -/
def sampleStored : StoredImage :=
  ⟨7, "esp32-1", "https://cdn/x.jpg", "esp32/esp32-1/abc", 640, 480, 51200, 1000, 1000, 0⟩

/-- A second sample stored image: id 8, device esp32-2. -/
def otherStored : StoredImage :=
  ⟨8, "esp32-2", "https://cdn/y.jpg", "esp32/esp32-2/def", 320, 240, 9000, 500, 500, 0⟩

/-- The supplied API key passes the check of both upload handlers: it is
truthy and equal to the configured secret, i.e. the rejection condition of
the JS guard evaluates to false. -/
def validKey (env : UploadEnv) (req : UploadRequest) : Prop :=
  jsFalsy (suppliedApiKey req) = false ∧ suppliedApiKey req = env.deviceApiKey

theorem validKey_not_rejected {env : UploadEnv} {req : UploadRequest}
    (h : validKey env req) :
    ¬(jsFalsy (suppliedApiKey req) = true ∨ suppliedApiKey req ≠ env.deviceApiKey) := by
  rcases h with ⟨h1, h2⟩
  intro hcon
  rcases hcon with hc | hc
  · rw [h1] at hc
    exact Bool.false_ne_true hc
  · exact hc h2

/-- Sample environment with the secret configured. -/
def envSecret : UploadEnv := ⟨some "secret123", none, none⟩

/-- Sample successful Cloudinary result (the spec's concrete scenario). -/
def stoOk : StorageResult := ⟨"https://cdn/x.jpg", "esp32/esp32-1/abc", 640, 480, 51200⟩

/-- Sample successfully saved document. -/
def docOk : SavedDoc := ⟨7, 1700000000⟩

/-- Sample authorized request with a non-empty body. -/
def reqGood : UploadRequest :=
  ⟨some "secret123", none, some "esp32-1", none, some [255, 216, 255]⟩

/-- Sample request with a wrong API key. -/
def reqBadKey : UploadRequest := ⟨some "wrong", none, none, none, some [255]⟩

/-- Sample authorized request with a missing body. -/
def reqNoBody : UploadRequest := ⟨some "secret123", none, none, none, none⟩

/-- C1: a POST /upload request whose API key (header `x-api-key` or query
`apiKey`) is missing or differs from the configured secret is answered with
HTTP 401 and a JSON error body, and no storage, persistence or notification
collaborator call is made — in both server variants. -/
theorem upload_bad_key_401_no_effects (env : UploadEnv) (req : UploadRequest)
    (storage : Except String StorageResult) (persist : Except String SavedDoc)
    (h : jsFalsy (suppliedApiKey req) = true ∨ suppliedApiKey req ≠ env.deviceApiKey) :
    (uploadHandler env req storage persist).1
        = errResponse 401 "Unauthorized: invalid api key" ∧
    (uploadHandler env req storage persist).2 = noCalls ∧
    (uploadHandlerV0 env req storage).1
        = errResponse 401 "Unauthorized: invalid api key" ∧
    (uploadHandlerV0 env req storage).2 = noCalls := by
  unfold uploadHandler uploadHandlerV0
  rw [if_pos h, if_pos h]
  exact ⟨rfl, rfl, rfl, rfl⟩

/-- C1 witness: the wrong-key request is rejected with 401 and no calls. -/
theorem upload_bad_key_401_no_effects_witness :
    (uploadHandler envSecret reqBadKey (Except.ok stoOk) (Except.ok docOk)).1
        = errResponse 401 "Unauthorized: invalid api key" ∧
    (uploadHandler envSecret reqBadKey (Except.ok stoOk) (Except.ok docOk)).2 = noCalls ∧
    (uploadHandlerV0 envSecret reqBadKey (Except.ok stoOk)).1
        = errResponse 401 "Unauthorized: invalid api key" ∧
    (uploadHandlerV0 envSecret reqBadKey (Except.ok stoOk)).2 = noCalls :=
  upload_bad_key_401_no_effects envSecret reqBadKey (Except.ok stoOk)
    (Except.ok docOk) (Or.inr (by decide))

/-- C9: a POST /upload request with a valid API key whose body is missing or
empty is answered with HTTP 400 and a JSON error body, and no storage,
persistence or notification collaborator call is made — in both server
variants. -/
theorem upload_empty_body_400_no_effects (env : UploadEnv) (req : UploadRequest)
    (storage : Except String StorageResult) (persist : Except String SavedDoc)
    (hk : validKey env req) (hb : emptyBody req.body) :
    (uploadHandler env req storage persist).1 = errResponse 400 "No image uploaded" ∧
    (uploadHandler env req storage persist).2 = noCalls ∧
    (uploadHandlerV0 env req storage).1 = errResponse 400 "No image uploaded" ∧
    (uploadHandlerV0 env req storage).2 = noCalls := by
  unfold uploadHandler uploadHandlerV0
  rw [if_neg (validKey_not_rejected hk), if_pos hb,
    if_neg (validKey_not_rejected hk), if_pos hb]
  exact ⟨rfl, rfl, rfl, rfl⟩

/-- C9 witness: the authorized body-less request is rejected with 400 and no
collaborator call. -/
theorem upload_empty_body_400_no_effects_witness :
    (uploadHandler envSecret reqNoBody (Except.ok stoOk) (Except.ok docOk)).1
        = errResponse 400 "No image uploaded" ∧
    (uploadHandler envSecret reqNoBody (Except.ok stoOk) (Except.ok docOk)).2 = noCalls ∧
    (uploadHandlerV0 envSecret reqNoBody (Except.ok stoOk)).1
        = errResponse 400 "No image uploaded" ∧
    (uploadHandlerV0 envSecret reqNoBody (Except.ok stoOk)).2 = noCalls :=
  upload_empty_body_400_no_effects envSecret reqNoBody (Except.ok stoOk)
    (Except.ok docOk) (by constructor <;> decide) (by decide)

/-- C2: when the request is authorized and carries a non-empty body but the
storage upload fails, the handler answers HTTP 500 carrying the failure
detail, no ImageRecord is handed to the metadata store, and no notification
is sent. -/
theorem upload_storage_failure_500 (env : UploadEnv) (req : UploadRequest)
    (e : String) (persist : Except String SavedDoc)
    (hk : validKey env req) (hb : ¬ emptyBody req.body) :
    (uploadHandler env req (Except.error e) persist).1 = errResponse 500 e ∧
    (uploadHandler env req (Except.error e) persist).2.persistCall = none ∧
    (uploadHandler env req (Except.error e) persist).2.notifyCall = none := by
  unfold uploadHandler
  rw [if_neg (validKey_not_rejected hk), if_neg hb]
  exact ⟨rfl, rfl, rfl⟩

/-- C2 witness: a concrete storage failure yields 500 and neither a persisted
record nor a notification. -/
theorem upload_storage_failure_500_witness :
    (uploadHandler envSecret reqGood (Except.error "cloudinary down")
        (Except.ok docOk)).1 = errResponse 500 "cloudinary down" ∧
    (uploadHandler envSecret reqGood (Except.error "cloudinary down")
        (Except.ok docOk)).2.persistCall = none ∧
    (uploadHandler envSecret reqGood (Except.error "cloudinary down")
        (Except.ok docOk)).2.notifyCall = none :=
  upload_storage_failure_500 envSecret reqGood "cloudinary down"
    (Except.ok docOk) (by constructor <;> decide) (by decide)

/-- C3: when the request is authorized with a non-empty body, storage
succeeds and metadata persistence fails, the handler still answers HTTP 200
with the full storage metadata, and the response omits `imageId` and
`savedAt`; the persistence failure is never surfaced as an error status. -/
theorem upload_persist_failure_still_200 (env : UploadEnv) (req : UploadRequest)
    (u : StorageResult) (pe : String)
    (hk : validKey env req) (hb : ¬ emptyBody req.body) :
    (uploadHandler env req (Except.ok u) (Except.error pe)).1
      = { status := 200, ok := some true, error := none,
          url := some u.secure_url, public_id := some u.public_id,
          width := some u.width, height := some u.height,
          bytes := some u.bytes, imageId := none, savedAt := none } := by
  unfold uploadHandler
  rw [if_neg (validKey_not_rejected hk), if_neg hb]
  rfl

/-- C3 witness: a concrete persistence failure still yields the 200 response
with the storage URL and without `imageId` / `savedAt`. -/
theorem upload_persist_failure_still_200_witness :
    (uploadHandler envSecret reqGood (Except.ok stoOk)
        (Except.error "mongo down")).1
      = { status := 200, ok := some true, error := none,
          url := some stoOk.secure_url, public_id := some stoOk.public_id,
          width := some stoOk.width, height := some stoOk.height,
          bytes := some stoOk.bytes, imageId := none, savedAt := none } :=
  upload_persist_failure_still_200 envSecret reqGood stoOk "mongo down"
    (by constructor <;> decide) (by decide)

/-- C4: when the request is authorized with a non-empty body and both storage
and persistence succeed, the handler answers HTTP 200 with `ok`, the storage
URL, public id, width, height, bytes, and the persisted record's id as
`imageId` and creation timestamp as `savedAt`. -/
theorem upload_success_response (env : UploadEnv) (req : UploadRequest)
    (u : StorageResult) (d : SavedDoc)
    (hk : validKey env req) (hb : ¬ emptyBody req.body) :
    (uploadHandler env req (Except.ok u) (Except.ok d)).1
      = { status := 200, ok := some true, error := none,
          url := some u.secure_url, public_id := some u.public_id,
          width := some u.width, height := some u.height,
          bytes := some u.bytes, imageId := some d.id,
          savedAt := some d.createdAt } := by
  unfold uploadHandler
  rw [if_neg (validKey_not_rejected hk), if_neg hb]
  rfl

/-- C4 witness: the spec's concrete scenario — secret `secret123`, device
`esp32-1`, a JPEG body, the given storage result — yields the full 200
response including `imageId` and `savedAt`. -/
theorem upload_success_response_witness :
    (uploadHandler envSecret reqGood (Except.ok stoOk) (Except.ok docOk)).1
      = { status := 200, ok := some true, error := none,
          url := some stoOk.secure_url, public_id := some stoOk.public_id,
          width := some stoOk.width, height := some stoOk.height,
          bytes := some stoOk.bytes, imageId := some docOk.id,
          savedAt := some docOk.createdAt } :=
  upload_success_response envSecret reqGood stoOk docOk
    (by constructor <;> decide) (by decide)

/-- C10: when the configured secret `DEVICE_API_KEY` is unset or the empty
string, every POST /upload request is rejected with HTTP 401 and no
collaborator call, whatever API key the client supplies — in both server
variants: a missing or empty client key fails the truthiness check, and any
non-empty client key fails the equality comparison. -/
theorem upload_unset_secret_always_401 (env : UploadEnv) (req : UploadRequest)
    (storage : Except String StorageResult) (persist : Except String SavedDoc)
    (hs : env.deviceApiKey = none ∨ env.deviceApiKey = some "") :
    (uploadHandler env req storage persist).1
        = errResponse 401 "Unauthorized: invalid api key" ∧
    (uploadHandler env req storage persist).2 = noCalls ∧
    (uploadHandlerV0 env req storage).1
        = errResponse 401 "Unauthorized: invalid api key" ∧
    (uploadHandlerV0 env req storage).2 = noCalls := by
  have h : jsFalsy (suppliedApiKey req) = true ∨ suppliedApiKey req ≠ env.deviceApiKey := by
    cases hsup : suppliedApiKey req with
    | none => exact Or.inl rfl
    | some k =>
        rcases eq_or_ne k "" with hk | hk
        · exact Or.inl (by simp [jsFalsy, hk])
        · refine Or.inr ?_
          rcases hs with h | h <;> rw [h] <;> simp [hk]
  unfold uploadHandler uploadHandlerV0
  rw [if_pos h, if_pos h]
  exact ⟨rfl, rfl, rfl, rfl⟩

/-- C10 witness: with an unset secret, even a request supplying some API key
is rejected with 401 in both variants. -/
theorem upload_unset_secret_always_401_witness :
    (uploadHandler ⟨none, none, none⟩ reqBadKey (Except.ok stoOk)
        (Except.ok docOk)).1 = errResponse 401 "Unauthorized: invalid api key" ∧
    (uploadHandler ⟨none, none, none⟩ reqBadKey (Except.ok stoOk)
        (Except.ok docOk)).2 = noCalls ∧
    (uploadHandlerV0 ⟨none, none, none⟩ reqBadKey (Except.ok stoOk)).1
        = errResponse 401 "Unauthorized: invalid api key" ∧
    (uploadHandlerV0 ⟨none, none, none⟩ reqBadKey (Except.ok stoOk)).2 = noCalls :=
  upload_unset_secret_always_401 ⟨none, none, none⟩ reqBadKey (Except.ok stoOk)
    (Except.ok docOk) (Or.inl rfl)

/-- C5 (counterexample): a fully non-numeric `limit` value does not fall back
to the default 20 — `parseInt` yields NaN and `Math.min(100, NaN)` is NaN, so
the effective limit is NaN (modelled as `none`), not 20. -/
theorem effectiveLimit_nonnumeric_not_default :
    effectiveLimit (some "abc") = none ∧ effectiveLimit (some "abc") ≠ some 20 := by
  constructor
  · decide
  · decide

/-- C5 (amended): the effective limit of GET /images clamps parsed values at
100 from above and returns smaller parsed values unchanged; a missing (or
empty-string) `limit` defaults to 20; a `limit` whose `parseInt` fails yields
NaN (no numeric limit), not the default 20. -/
theorem effectiveLimit_clamp_default :
    (∀ s n, jsParseInt s = some n → 100 ≤ n → effectiveLimit (some s) = some 100) ∧
    (∀ s n, jsParseInt s = some n → n ≤ 100 → effectiveLimit (some s) = some n) ∧
    effectiveLimit none = some 20 ∧
    effectiveLimit (some "") = some 20 ∧
    (∀ s, s ≠ "" → jsParseInt s = none → effectiveLimit (some s) = none) := by
  have hnb : ∀ s n, jsParseInt s = some n → s ≠ "" := by
    intro s n hn he
    rw [he] at hn
    have h0 : jsParseInt "" = none := by decide
    rw [h0] at hn
    exact Option.noConfusion hn
  refine ⟨?_, ?_, by decide, by decide, ?_⟩
  · intro s n hn h100
    have hs := hnb s n hn
    simp [effectiveLimit, jsOr, jsFalsy, hs, hn, min_eq_left h100]
  · intro s n hn h100
    have hs := hnb s n hn
    simp [effectiveLimit, jsOr, jsFalsy, hs, hn, min_eq_right h100]
  · intro s hs hn
    simp [effectiveLimit, jsOr, jsFalsy, hs, hn]

/-- C5 amended witness: a limit of 150 is clamped to 100, a limit of 5 is
kept, and a non-numeric limit yields NaN. -/
theorem effectiveLimit_clamp_default_witness :
    effectiveLimit (some "150") = some 100 ∧
    effectiveLimit (some "5") = some 5 ∧
    effectiveLimit (some "xyz") = none :=
  ⟨effectiveLimit_clamp_default.1 "150" 150 (by decide) (by decide),
   effectiveLimit_clamp_default.2.1 "5" 5 (by decide) (by decide),
   effectiveLimit_clamp_default.2.2.2.2 "xyz" (by decide) (by decide)⟩

theorem docCreatedAt_projectImage (r : StoredImage) :
    docCreatedAt (projectImage r) = r.createdAt := rfl

theorem lookup_deviceId_projectImage (r : StoredImage) :
    (projectImage r).lookup "deviceId" = some (DocValue.str r.deviceId) := rfl

/-- Evaluation of the listing handler on the one-record store with no query
parameters. -/
theorem imagesHandler_sample_nofilter :
    (imagesHandler [sampleStored] ⟨none, none⟩).images = [projectImage sampleStored] := by
  have h20 : effectiveLimit none = some 20 := by decide
  simp [imagesHandler, queryImages, h20, jsFalsy, List.mergeSort]

/-- C6 (counterexample): the returned image documents do not consist solely
of the seven projected fields — the store-assigned `_id` is also present,
because an inclusion projection keeps `_id` unless it is explicitly
excluded.  On a one-record store the returned document carries the pair
`("_id", 7)`, whose key is not among the projected field names. -/
theorem images_response_contains_internal_id :
    ¬ (∀ doc ∈ (imagesHandler [sampleStored] ⟨none, none⟩).images,
        ∀ kv ∈ doc, kv.1 ∈ imagesProjection) := by
  intro h
  have h2 := h (projectImage sampleStored)
    (by rw [imagesHandler_sample_nofilter]; exact List.mem_singleton_self _)
    ("_id", DocValue.num 7) (by decide)
  exact absurd h2 (by decide)

/-- C6 (amended): every field of every document returned by GET /images is
either the store-assigned `_id` (kept by the inclusion projection) or one of
the seven projected fields url, deviceId, createdAt, public_id, width,
height, bytes; in particular the internal `updatedAt` and `__v` fields are
never included. -/
theorem images_fields_id_or_projected (db : List StoredImage) (req : ImagesRequest)
    (doc : Doc) (hdoc : doc ∈ (imagesHandler db req).images)
    (kv : String × DocValue) (hkv : kv ∈ doc) :
    kv.1 ∈ "_id" :: imagesProjection := by
  simp only [imagesHandler, queryImages] at hdoc
  rcases List.mem_map.mp hdoc with ⟨r, hr, rfl⟩
  simp only [projectImage, applyProjection] at hkv
  have hp := (List.mem_filter.mp hkv).2
  simp only [decide_eq_true_eq] at hp
  rcases hp with h | h
  · rw [h]
    exact List.mem_cons_self _ _
  · exact List.mem_cons_of_mem _ h

/-- C6 amended witness: the `_id` key of the returned sample document is
among the allowed keys. -/
theorem images_fields_id_or_projected_witness :
    ("_id" : String) ∈ "_id" :: imagesProjection :=
  images_fields_id_or_projected [sampleStored] ⟨none, none⟩
    (projectImage sampleStored)
    (by rw [imagesHandler_sample_nofilter]; exact List.mem_singleton_self _)
    ("_id", DocValue.num 7) (by decide)

/-- C7: a GET /images request with limit 5 returns at most 5 documents,
and their `createdAt` values are non-increasing (creation time descending),
whatever the store contents and the device filter. -/
theorem images_limit5_bounded_sorted (db : List StoredImage) (dev : Option String) :
    (imagesHandler db ⟨some "5", dev⟩).images.length ≤ 5 ∧
    List.Pairwise (fun d1 d2 => docCreatedAt d2 ≤ docCreatedAt d1)
      (imagesHandler db ⟨some "5", dev⟩).images := by
  have h5 : effectiveLimit (some "5") = some 5 := by decide
  have htrans : ∀ a b c : StoredImage,
      decide (b.createdAt ≤ a.createdAt) = true →
      decide (c.createdAt ≤ b.createdAt) = true →
      decide (c.createdAt ≤ a.createdAt) = true := by
    intro a b c hab hbc
    simp only [decide_eq_true_eq] at hab hbc ⊢
    omega
  have htotal : ∀ a b : StoredImage,
      (decide (b.createdAt ≤ a.createdAt) || decide (a.createdAt ≤ b.createdAt)) = true := by
    intro a b
    simp only [Bool.or_eq_true, decide_eq_true_eq]
    omega
  simp only [imagesHandler, queryImages, h5]
  constructor
  · rw [List.length_map]
    exact le_trans (List.length_take_le _ _) (by decide)
  · rw [List.pairwise_map]
    refine List.Pairwise.sublist (List.take_sublist _ _) ?_
    refine List.Pairwise.imp ?_
      (@List.sorted_mergeSort StoredImage
        (fun a b => decide (b.createdAt ≤ a.createdAt)) htrans htotal _)
    intro a b h
    simp only [docCreatedAt_projectImage]
    exact of_decide_eq_true h

/-- C8 (counterexample): a request carrying the `deviceId` query parameter
with the empty-string value does not filter at all — the parameter is falsy,
the filter is skipped, and a record of a different device is returned. -/
theorem images_empty_device_filter_skipped :
    ¬ (∀ doc ∈ (imagesHandler [otherStored] ⟨none, some ""⟩).images,
        doc.lookup "deviceId" = some (DocValue.str "")) := by
  intro h
  have heval : (imagesHandler [otherStored] ⟨none, some ""⟩).images
      = [projectImage otherStored] := by
    have h20 : effectiveLimit none = some 20 := by decide
    simp [imagesHandler, queryImages, h20, jsFalsy, List.mergeSort]
  have h2 := h (projectImage otherStored)
    (by rw [heval]; exact List.mem_singleton_self _)
  exact absurd h2 (by decide)

/-- C8 (amended): for a GET /images request carrying the `deviceId` query
parameter with a non-empty value X, every returned document has deviceId
equal to X (exact-match filter). -/
theorem images_device_filter_exact (db : List StoredImage) (lp : Option String)
    (X : String) (hX : X ≠ "")
    (doc : Doc) (hdoc : doc ∈ (imagesHandler db ⟨lp, some X⟩).images) :
    doc.lookup "deviceId" = some (DocValue.str X) := by
  have hfalsy : jsFalsy (some X) = false := by simp [jsFalsy, hX]
  cases hl : effectiveLimit lp with
  | none =>
      simp only [imagesHandler, queryImages, hl, hfalsy, Bool.false_eq_true,
        if_false] at hdoc
      rcases List.mem_map.mp hdoc with ⟨r, hr, rfl⟩
      have hm := List.mem_filter.mp (List.mem_mergeSort.mp hr)
      rw [lookup_deviceId_projectImage, of_decide_eq_true hm.2]
  | some n =>
      simp only [imagesHandler, queryImages, hl, hfalsy, Bool.false_eq_true,
        if_false] at hdoc
      rcases List.mem_map.mp hdoc with ⟨r, hr, rfl⟩
      have hms := List.Sublist.mem hr (List.take_sublist _ _)
      have hm := List.mem_filter.mp (List.mem_mergeSort.mp hms)
      rw [lookup_deviceId_projectImage, of_decide_eq_true hm.2]

/-- C8 amended witness: filtering the one-record store by its own device id
returns that record, whose deviceId field is that id. -/
theorem images_device_filter_exact_witness :
    (projectImage sampleStored).lookup "deviceId" = some (DocValue.str "esp32-1") :=
  images_device_filter_exact [sampleStored] none "esp32-1" (by decide)
    (projectImage sampleStored) (by
      have h20 : effectiveLimit none = some 20 := by decide
      simp [imagesHandler, queryImages, h20, jsFalsy, List.mergeSort, sampleStored])

end IotBackend
